import Mathlib

/-!
Verification of the quota engine, media pipeline, router and summarizer of
smart_media_bot.py (canonical implementation, src/smart_media_bot.py).

Modelling conventions:
- Python dicts keyed by str(user_id) are modelled as association lists keyed
  by the numeric id (str is injective on ints, and only lookup/assignment are
  used, so the key representation is immaterial).
- Calendar dates (datetime.now().date().isoformat()) are modelled as an
  abstract day number passed in as the parameter `today`; the source only
  ever compares dates for (in)equality.  Full timestamps
  (datetime.now().isoformat()) are likewise an abstract `now : Nat`.
- State-mutating methods of UserManager become functions from state to state
  (plus a return value); `save_user_data` copies the in-memory table to the
  persisted one (file writes always succeed in the model).
- Python strings are modelled on the character-list model of Lean `String`;
  the Python primitives used by the source (split, strip, lower, slicing,
  the `in` operator, join) are defined below by structural recursion over
  `List Char` so that they both mirror Python semantics and evaluate in the
  kernel.
-/

namespace SMB

/-- BotConfig constants (environment defaults from the source). -/
def MAX_FREE_DOWNLOADS : Nat := 3

def MAX_FREE_SUMMARIES : Nat := 5

def MAX_PREMIUM_DOWNLOADS : Nat := 100

def MAX_PREMIUM_SUMMARIES : Nat := 50

def FREE_MAX_FILE_SIZE : Nat := 50 * 1024 * 1024

def PREMIUM_MAX_FILE_SIZE : Nat := 500 * 1024 * 1024

/-- The per-user record created by `UserManager.get_user` (source lines
118-131).  Timestamp-valued fields hold abstract `Nat` instants. -/
structure UserRecord where
  is_subscribed : Bool
  subscription_date : Option Nat
  downloads_today : Nat
  summaries_today : Nat
  last_reset : Nat
  is_premium : Bool
  premium_expires : Option Nat
  premium_started : Option Nat
  total_downloads : Nat
  total_summaries : Nat
  referral_code : Option String
  referred_by : Option String
deriving Repr, DecidableEq

/-- The fresh record inserted on first lookup of an unseen identity;
`last_reset` is initialised to the current date. -/
def freshUser (today : Nat) : UserRecord :=
  { is_subscribed := false
    subscription_date := none
    downloads_today := 0
    summaries_today := 0
    last_reset := today
    is_premium := false
    premium_expires := none
    premium_started := none
    total_downloads := 0
    total_summaries := 0
    referral_code := none
    referred_by := none }

/-- Association-list lookup modelling `user_id in self.users` /
`self.users[user_id]`. -/
def findUser : List (Nat × UserRecord) → Nat → Option UserRecord
  | [], _ => none
  | (k, v) :: rest, uid => if k = uid then some v else findUser rest uid

/-- Association-list assignment modelling `self.users[user_id] = ...`. -/
def setUser : List (Nat × UserRecord) → Nat → UserRecord → List (Nat × UserRecord)
  | [], uid, v => [(uid, v)]
  | (k, w) :: rest, uid, v =>
      if k = uid then (uid, v) :: rest else (k, w) :: setUser rest uid v

/-- State of `UserManager`: the in-memory table `self.users` plus the
persisted table held in USER_DATA_FILE. -/
structure UMState where
  users : List (Nat × UserRecord)
  persisted : List (Nat × UserRecord)
deriving Repr, DecidableEq

/-- `UserManager.save_user_data`: rewrites the persisted table in full. -/
def save_user_data (s : UMState) : UMState :=
  { s with persisted := s.users }

/-- `UserManager.get_user` (source lines 115-132): returns the existing
record, or inserts and returns a fresh one.  Note that the source does NOT
call `save_user_data` here. -/
def get_user (s : UMState) (uid today : Nat) : UserRecord × UMState :=
  match findUser s.users uid with
  | some u => (u, s)
  | none =>
      let u := freshUser today
      (u, { s with users := setUser s.users uid u })

/-- `UserManager.subscribe_user` (source lines 134-141). -/
def subscribe_user (s : UMState) (uid today now : Nat) (referral : Option String) : UMState :=
  let p := get_user s uid today
  let u := { p.1 with is_subscribed := true, subscription_date := some now }
  let u := match referral with
    | some c => { u with referred_by := some c }
    | none => u
  save_user_data { p.2 with users := setUser p.2.users uid u }

/-- `UserManager.reset_daily_limits` (source lines 155-162). -/
def reset_daily_limits (s : UMState) (uid today : Nat) : UMState :=
  let p := get_user s uid today
  if p.1.last_reset ≠ today then
    save_user_data
      { p.2 with
        users := setUser p.2.users uid
          { p.1 with downloads_today := 0, summaries_today := 0, last_reset := today } }
  else p.2

/-- `UserManager.can_download` (source lines 164-171).  The Python local
`user` aliases the dict that `reset_daily_limits` mutates in place, so the
limit comparison reads the post-reset counters; the model re-fetches the
record after the reset to reproduce that aliasing. -/
def can_download (s : UMState) (uid today : Nat) : Bool × UMState :=
  let p := get_user s uid today
  if p.1.is_subscribed = false then (false, p.2)
  else
    let s2 := reset_daily_limits p.2 uid today
    let u2 := (get_user s2 uid today).1
    if u2.is_premium then (decide (u2.downloads_today < MAX_PREMIUM_DOWNLOADS), s2)
    else (decide (u2.downloads_today < MAX_FREE_DOWNLOADS), s2)

/-- `UserManager.can_summarize` (source lines 173-180). -/
def can_summarize (s : UMState) (uid today : Nat) : Bool × UMState :=
  let p := get_user s uid today
  if p.1.is_subscribed = false then (false, p.2)
  else
    let s2 := reset_daily_limits p.2 uid today
    let u2 := (get_user s2 uid today).1
    if u2.is_premium then (decide (u2.summaries_today < MAX_PREMIUM_SUMMARIES), s2)
    else (decide (u2.summaries_today < MAX_FREE_SUMMARIES), s2)

/-- `UserManager.get_max_file_size` (source lines 182-186). -/
def get_max_file_size (s : UMState) (uid today : Nat) : Nat × UMState :=
  let p := get_user s uid today
  if p.1.is_premium then (PREMIUM_MAX_FILE_SIZE, p.2) else (FREE_MAX_FILE_SIZE, p.2)

/-- `UserManager.increment_download` (source lines 188-192). -/
def increment_download (s : UMState) (uid today : Nat) : UMState :=
  let p := get_user s uid today
  save_user_data
    { p.2 with
      users := setUser p.2.users uid
        { p.1 with
          downloads_today := p.1.downloads_today + 1
          total_downloads := p.1.total_downloads + 1 } }

/-- `UserManager.increment_summary` (source lines 194-198). -/
def increment_summary (s : UMState) (uid today : Nat) : UMState :=
  let p := get_user s uid today
  save_user_data
    { p.2 with
      users := setUser p.2.users uid
        { p.1 with
          summaries_today := p.1.summaries_today + 1
          total_summaries := p.1.total_summaries + 1 } }

/-! Python string primitives on the character-list model of `String`. -/

/-- Fuel-indexed worker for Python `str.split(sep)` with a nonempty
separator: cut at each leftmost match of `sep`, keeping empty pieces.  The
fuel is always called with more fuel than characters, so the fuel-exhausted
branch is unreachable. -/
def pySplitAux (sep : List Char) : Nat → List Char → List Char → List (List Char)
  | _, [], acc => [acc.reverse]
  | 0, l, acc => [acc.reverse ++ l]
  | fuel + 1, c :: rest, acc =>
      if sep.isPrefixOf (c :: rest) then
        acc.reverse :: pySplitAux sep fuel (List.drop sep.length (c :: rest)) []
      else
        pySplitAux sep fuel rest (c :: acc)

/-- Python `s.split(sep)` for a nonempty separator. -/
def pySplit (sep s : String) : List String :=
  (pySplitAux sep.data (s.data.length + 1) s.data []).map (fun l => String.mk l)

/-- Worker for Python whitespace `str.split()`: cut at every whitespace
character (empty pieces are filtered by the caller). -/
def splitWsAux : List Char → List Char → List (List Char)
  | [], acc => [acc.reverse]
  | c :: rest, acc =>
      if c.isWhitespace then acc.reverse :: splitWsAux rest []
      else splitWsAux rest (c :: acc)

/-- Python `s.split()` (split on whitespace runs, discarding empties). -/
def pyWords (s : String) : List String :=
  ((splitWsAux s.data []).filter (fun l => l ≠ [])).map (fun l => String.mk l)

/-- Python `s.strip()`: remove leading and trailing whitespace. -/
def pyStrip (s : String) : String :=
  String.mk (((s.data.dropWhile Char.isWhitespace).reverse.dropWhile Char.isWhitespace).reverse)

/-- Python `s[:n]` slicing (a string prefix of at most `n` characters). -/
def pyTake (s : String) (n : Nat) : String :=
  String.mk (s.data.take n)

/-- Python `sep.join(xs)`. -/
def pyJoin (sep : String) (xs : List String) : String :=
  String.mk (List.intercalate sep.data (xs.map String.data))

/-- Python `s.lower()` (per-character lowercasing; the URLs involved are
ASCII). -/
def pyLower (s : String) : String :=
  String.mk (s.data.map Char.toLower)

/-- Python `needle in hay` substring test. -/
def strContains (hay needle : String) : Bool :=
  (List.range (hay.data.length + 1)).any (fun i => needle.data.isPrefixOf (hay.data.drop i))

/-! Media Acquisition Pipeline (`MediaDownloader.download_youtube_video`,
source lines 208-275). -/

/-- The fields of the yt-dlp `info` dict that the source reads.  A field
holds `none` when the key is absent or maps to Python `None` (both read back
as `None` through `info.get`; for `filesize_approx` the source's default of
`0` is behaviourally identical to `None` under the truthiness test that
consumes it). -/
structure MediaInfo where
  filesize : Option Nat
  filesize_approx : Option Nat
  title : Option String
  duration : Option Nat
  uploader : Option String
  description : Option String
deriving Repr, DecidableEq

inductive FormatType where
  | video
  | audio
deriving Repr, DecidableEq

/-- Outcome dict of `download_youtube_video`: the too-large refusal (which
formats the observed size, the tier name and the tier limit into its error
string), a generic error from the `except` branch, or the success dict. -/
inductive DownloadResult where
  | tooLarge (observed limit : Nat) (premiumTier : Bool)
  | error (msg : String)
  | success (filepath title : String) (duration : Nat) (uploader description : String)
deriving Repr, DecidableEq

def isSuccess : DownloadResult → Bool
  | .success _ _ _ _ _ => true
  | _ => false

/-- `filesize = info.get("filesize") or info.get("filesize_approx", 0)`
(source line 247): Python `or` falls through on `None` and `0` alike. -/
def sizeEstimate (info : MediaInfo) : Nat :=
  match info.filesize with
  | some n => if n = 0 then info.filesize_approx.getD 0 else n
  | none => info.filesize_approx.getD 0

/-- `filename.rsplit(".", 1)[0] + ".mp3"` (source line 258). -/
def audioFilename (filename : String) : String :=
  match pySplit "." filename with
  | [p] => p ++ ".mp3"
  | parts => pyJoin "." parts.dropLast ++ ".mp3"

/-- `info.get("description", "")[:500] + "..." if info.get("description")
else ""` (source lines 266-270); the empty string is falsy in Python. -/
def descTrunc : Option String → String
  | some d => if d = "" then "" else pyTake d 500 ++ "..."
  | none => ""

/-- `MediaDownloader.download_youtube_video` (source lines 208-275), with
the network-resolved metadata `info` and the prepared output `filename`
supplied as parameters.  The second component of the result records whether
`ydl.download` (the payload transfer, source line 255) was performed.
Construction of the yt-dlp option dicts has no effect on the modelled
state; exception paths (which yield `DownloadResult.error`) are raised by
the environment and are not modelled. -/
def download_youtube_video (s : UMState) (uid today : Nat) (info : MediaInfo)
    (filename : String) (ft : FormatType) : (DownloadResult × Bool) × UMState :=
  let p := get_user s uid today
  let q := get_max_file_size p.2 uid today
  let filesize := sizeEstimate info
  if filesize ≠ 0 ∧ q.1 < filesize then
    ((.tooLarge filesize q.1 p.1.is_premium, false), q.2)
  else
    let fname := if ft = FormatType.audio then audioFilename filename else filename
    ((.success fname (info.title.getD "Unknown") (info.duration.getD 0)
        (info.uploader.getD "Unknown") (descTrunc info.description), true), q.2)

/-! Summarization Pipeline, strategy A
(`TextSummarizer.summarize_with_local_extraction`, source lines 302-328). -/

inductive SummaryResult where
  | success (summary : String)
  | failure (error : String)
deriving Repr, DecidableEq

def isSuccessS : SummaryResult → Bool
  | .success _ => true
  | .failure _ => false

def summaryText : SummaryResult → String
  | .success t => t
  | .failure e => e

/-- `max_length = 500 if user["is_premium"] else 300` (source line 344). -/
def tierMaxLength (is_premium : Bool) : Nat :=
  if is_premium then 500 else 300

/-- The scored-and-filtered sentence list of strategy A (source lines
308-318): sentences under 10 characters after stripping are skipped; the
score is the word count, multiplied by 1.5 for the first sentence and by
1.2 for sentences in the first third of the document (both multipliers
stack on sentence 0).  Scores are kept in exact tenths (a word count `w`
scores `10*w`, the multipliers send it to `15*w`, `12*w` or `18*w`, all
integral), which represents the real values of the source's literals 1.5
and 1.2 exactly and preserves every comparison. -/
def scoredSentences (text : String) : List (Nat × String) :=
  let sentences := pySplit ". " text
  let n := sentences.length
  sentences.enum.filterMap (fun p =>
    let s := pyStrip p.2
    if s.length < 10 then none
    else
      let score : Nat := 10 * (pyWords s).length
      let score := if p.1 = 0 then score * 3 / 2 else score
      let score := if p.1 < n / 3 then score * 6 / 5 else score
      some (score, s))

/-- Python `<` on strings: lexicographic comparison by code point. -/
def strLT : List Char → List Char → Bool
  | [], [] => false
  | [], _ :: _ => true
  | _ :: _, [] => false
  | a :: as, b :: bs =>
      if a.toNat < b.toNat then true
      else if b.toNat < a.toNat then false
      else strLT as bs

/-- Python tuple comparison `a <= b` on `(score, sentence)` pairs. -/
def tupleLE (a b : Nat × String) : Bool :=
  decide (a.1 < b.1) || (decide (a.1 = b.1) && !strLT b.2.data a.2.data)

/-- Stable insertion into a descending list: the new element goes before
the first element not above it, reproducing
`scored_sentences.sort(reverse=True)` (source line 320). -/
def insertDesc (x : Nat × String) : List (Nat × String) → List (Nat × String)
  | [] => [x]
  | y :: ys => if tupleLE y x then x :: y :: ys else y :: insertDesc x ys

/-- Stable descending sort by Python tuple order. -/
def sortDesc (l : List (Nat × String)) : List (Nat × String) :=
  l.foldr insertDesc []

/-- `". ".join(top_sentences)` for the three highest-scoring sentences
(source lines 320-323). -/
def topSummary (text : String) : String :=
  pyJoin ". " (((sortDesc (scoredSentences text)).take 3).map (fun p => p.2))

/-- `TextSummarizer.summarize_with_local_extraction` (source lines
302-328): texts of at most 3 sentences are returned unchanged; otherwise
the top-3 summary is truncated with an ellipsis when it exceeds
`max_length`, and a trailing period is appended.  The `except` branch is
unreachable in the model. -/
def summarize_with_local_extraction (text : String) (max_length : Nat) : SummaryResult :=
  let sentences := pySplit ". " text
  if sentences.length ≤ 3 then .success text
  else
    let summary := topSummary text
    let summary :=
      if max_length < summary.length then pyTake summary max_length ++ "..." else summary
    .success (summary ++ ".")

/-! Acquisition Router (`handle_url`, source lines 509-515). -/

def youtube_domains : List String :=
  ["youtube.com", "youtu.be", "m.youtube.com", "youtube.be"]

/-- `any(d in url.lower() for d in youtube_domains)` (source line 510). -/
def is_youtube (url : String) : Bool :=
  youtube_domains.any (fun d => strContains (pyLower url) d)

inductive UrlClass where
  | Media
  | Article
deriving Repr, DecidableEq

/-- The routing decision of `handle_url` (source lines 512-515). -/
def classify (url : String) : UrlClass :=
  if is_youtube url then .Media else .Article

/-- Modelled from the spec: the claim speaks of the URL host, which the
source never extracts; following the ordinary reading of the spec, the host
is the authority component between the scheme separator and the next
slash. -/
def hostOf (url : String) : String :=
  let rest := match pySplit "://" url with
    | _ :: r :: _ => r
    | _ => url
  (pySplit "/" rest).headD rest

/-! Handlers (`handle_youtube_download`, source lines 518-572, and
`handle_article_summary`, source lines 575-617).  Message sending and the
network-dependent pipeline call are environment effects; the pipeline
outcome is supplied as the parameter `result` (the pipeline call itself
leaves the modelled state unchanged, since `can_download`/`can_summarize`
have already materialised the record its lookups read).  The returned flag
records whether the pipeline was invoked. -/

def handle_youtube_download (s : UMState) (uid today : Nat)
    (result : DownloadResult) : UMState × Bool :=
  let g := can_download s uid today
  if g.1 = false then
    ((get_user g.2 uid today).2, false)
  else
    if isSuccess result then
      let s2 := increment_download g.2 uid today
      ((get_user s2 uid today).2, true)
    else (g.2, true)

def handle_article_summary (s : UMState) (uid today : Nat)
    (result : SummaryResult) : UMState × Bool :=
  let g := can_summarize s uid today
  if g.1 = false then
    ((get_user g.2 uid today).2, false)
  else
    if isSuccessS result then
      let s2 := increment_summary g.2 uid today
      ((get_user s2 uid today).2, true)
    else (g.2, true)

/-! Declarative views used to state the claims. -/

/-- The record as seen through `get_user` (for an unseen identity this is
the fresh record that the lookup would create). -/
def recordView (s : UMState) (uid today : Nat) : UserRecord :=
  (get_user s uid today).1

/-- The record-level effect of the daily reset: zero the daily counters and
stamp the date, when the stored date is stale. -/
def resetView (u : UserRecord) (today : Nat) : UserRecord :=
  if u.last_reset ≠ today then
    { u with downloads_today := 0, summaries_today := 0, last_reset := today }
  else u

/-- The tier's daily download limit. -/
def downloadLimit (is_premium : Bool) : Nat :=
  if is_premium then MAX_PREMIUM_DOWNLOADS else MAX_FREE_DOWNLOADS

/-- The tier's daily summary limit. -/
def summaryLimit (is_premium : Bool) : Nat :=
  if is_premium then MAX_PREMIUM_SUMMARIES else MAX_FREE_SUMMARIES

/-- Overwrite the stored record's `summaries_today` (identity on an unseen
identity); used to state that a check ignores this field. -/
def withSummaries (s : UMState) (uid k : Nat) : UMState :=
  match findUser s.users uid with
  | some u => { s with users := setUser s.users uid { u with summaries_today := k } }
  | none => s

/-- The state after a daily reset applied to a state holding record `u` for
`uid`. -/
def resetState (s : UMState) (uid : Nat) (u : UserRecord) (today : Nat) : UMState :=
  if u.last_reset ≠ today then
    ⟨setUser s.users uid (resetView u today), setUser s.users uid (resetView u today)⟩
  else s

/-! Association-list and `get_user` lemmas. -/

theorem findUser_setUser_self (l : List (Nat × UserRecord)) (uid : Nat) (v : UserRecord) :
    findUser (setUser l uid v) uid = some v := by
  induction l with
  | nil => simp [setUser, findUser]
  | cons p t ih =>
      obtain ⟨k, w⟩ := p
      by_cases hk : k = uid
      · simp [setUser, hk, findUser]
      · simp [setUser, hk, findUser, ih]

theorem findUser_setUser_ne (l : List (Nat × UserRecord)) (uid uid2 : Nat) (v : UserRecord)
    (h : uid2 ≠ uid) : findUser (setUser l uid v) uid2 = findUser l uid2 := by
  induction l with
  | nil => simp [setUser, findUser, Ne.symm h]
  | cons p t ih =>
      obtain ⟨k, w⟩ := p
      by_cases hk : k = uid
      · simp [setUser, hk, findUser, Ne.symm h]
      · simp only [setUser, hk, if_false, findUser]
        split
        · rfl
        · exact ih

theorem get_user_found {s : UMState} {uid : Nat} {u : UserRecord} (today : Nat)
    (h : findUser s.users uid = some u) : get_user s uid today = (u, s) := by
  simp [get_user, h]

theorem get_user_notFound {s : UMState} {uid : Nat} (today : Nat)
    (h : findUser s.users uid = none) :
    get_user s uid today =
      (freshUser today, { s with users := setUser s.users uid (freshUser today) }) := by
  simp [get_user, h]

theorem findUser_get_user (s : UMState) (uid today : Nat) :
    findUser (get_user s uid today).2.users uid = some (get_user s uid today).1 := by
  cases hf : findUser s.users uid with
  | some u => simp [get_user, hf]
  | none => simp [get_user, hf, findUser_setUser_self]

/-! Characterization of the quota-engine operations on a state that already
holds a record for the identity. -/

theorem reset_daily_limits_found {s : UMState} {uid : Nat} {u : UserRecord} (today : Nat)
    (h : findUser s.users uid = some u) :
    reset_daily_limits s uid today = resetState s uid u today := by
  by_cases hd : u.last_reset = today <;>
    simp [reset_daily_limits, get_user_found today h, resetState, resetView, hd,
      save_user_data]

theorem reset_daily_limits_notFound {s : UMState} {uid : Nat} (today : Nat)
    (h : findUser s.users uid = none) :
    reset_daily_limits s uid today = { s with users := setUser s.users uid (freshUser today) } := by
  simp [reset_daily_limits, get_user_notFound today h, freshUser]

theorem can_download_notFound {s : UMState} {uid : Nat} (today : Nat)
    (h : findUser s.users uid = none) :
    can_download s uid today =
      (false, { s with users := setUser s.users uid (freshUser today) }) := by
  simp [can_download, get_user_notFound today h, freshUser]

theorem can_download_unsub {s : UMState} {uid : Nat} {u : UserRecord} (today : Nat)
    (h : findUser s.users uid = some u) (hs : u.is_subscribed = false) :
    can_download s uid today = (false, s) := by
  simp [can_download, get_user_found today h, hs]

theorem resetView_is_premium (u : UserRecord) (today : Nat) :
    (resetView u today).is_premium = u.is_premium := by
  unfold resetView; split <;> rfl

theorem get_user_resetState {s : UMState} {uid : Nat} {u : UserRecord} (today : Nat)
    (h : findUser s.users uid = some u) :
    get_user (resetState s uid u today) uid today =
      (resetView u today, resetState s uid u today) := by
  by_cases hd : u.last_reset = today
  · simp only [resetState, hd, ne_eq, not_true_eq_false, if_false, resetView]
    exact get_user_found today h
  · have hfind : findUser (resetState s uid u today).users uid = some (resetView u today) := by
      simp [resetState, hd, findUser_setUser_self]
    exact get_user_found today hfind

theorem can_download_sub {s : UMState} {uid : Nat} {u : UserRecord} (today : Nat)
    (h : findUser s.users uid = some u) (hs : u.is_subscribed = true) :
    can_download s uid today =
      (decide ((resetView u today).downloads_today < downloadLimit u.is_premium),
        resetState s uid u today) := by
  have hr := reset_daily_limits_found (s := s) today h
  simp only [can_download, get_user_found today h, hs, hr,
    get_user_resetState today h, resetView_is_premium]
  by_cases hp : u.is_premium <;> simp [hp, downloadLimit]

theorem can_summarize_notFound {s : UMState} {uid : Nat} (today : Nat)
    (h : findUser s.users uid = none) :
    can_summarize s uid today =
      (false, { s with users := setUser s.users uid (freshUser today) }) := by
  simp [can_summarize, get_user_notFound today h, freshUser]

theorem can_summarize_unsub {s : UMState} {uid : Nat} {u : UserRecord} (today : Nat)
    (h : findUser s.users uid = some u) (hs : u.is_subscribed = false) :
    can_summarize s uid today = (false, s) := by
  simp [can_summarize, get_user_found today h, hs]

theorem can_summarize_sub {s : UMState} {uid : Nat} {u : UserRecord} (today : Nat)
    (h : findUser s.users uid = some u) (hs : u.is_subscribed = true) :
    can_summarize s uid today =
      (decide ((resetView u today).summaries_today < summaryLimit u.is_premium),
        resetState s uid u today) := by
  have hr := reset_daily_limits_found (s := s) today h
  simp only [can_summarize, get_user_found today h, hs, hr,
    get_user_resetState today h, resetView_is_premium]
  by_cases hp : u.is_premium <;> simp [hp, summaryLimit]

theorem resetView_downloads_same (u : UserRecord) (today : Nat)
    (h : u.last_reset = today) : resetView u today = u := by
  simp [resetView, h]

theorem freshUser_is_subscribed (today : Nat) : (freshUser today).is_subscribed = false := rfl

/-- C1: for every user identity, `can_download` returns false when the
stored record is not subscribed; otherwise it first applies the daily reset
and then returns true exactly when the (post-reset) `downloads_today` is
strictly below the tier's daily download limit, which is 3 for free and 100
for premium, irrespective of `summaries_today`. -/
theorem c1_can_download_spec (s : UMState) (uid today k : Nat) :
    (can_download s uid today).1 =
      ((recordView s uid today).is_subscribed &&
        decide ((resetView (recordView s uid today) today).downloads_today <
          downloadLimit (recordView s uid today).is_premium)) ∧
    (can_download (withSummaries s uid k) uid today).1 = (can_download s uid today).1 ∧
    downloadLimit false = 3 ∧ downloadLimit true = 100 := by
  refine ⟨?_, ?_, rfl, rfl⟩
  · cases hf : findUser s.users uid with
    | none =>
        simp [can_download_notFound today hf, recordView, get_user_notFound today hf,
          freshUser]
    | some u =>
        by_cases hs : u.is_subscribed
        · simp [can_download_sub today hf hs, recordView, get_user_found today hf, hs]
        · have hs2 : u.is_subscribed = false := by simpa using hs
          simp [can_download_unsub today hf hs2, recordView, get_user_found today hf, hs2]
  · cases hf : findUser s.users uid with
    | none =>
        have : withSummaries s uid k = s := by simp [withSummaries, hf]
        rw [this]
    | some u =>
        have hw : withSummaries s uid k =
            { s with users := setUser s.users uid { u with summaries_today := k } } := by
          simp [withSummaries, hf]
        have hf2 : findUser (withSummaries s uid k).users uid
            = some { u with summaries_today := k } := by
          rw [hw]; exact findUser_setUser_self _ _ _
        by_cases hs : u.is_subscribed
        · have h1 := can_download_sub (s := withSummaries s uid k) today hf2 (by simpa using hs)
          have h2 := can_download_sub (s := s) today hf hs
          rw [h1, h2]
          by_cases hd : u.last_reset = today <;> simp [resetView, hd]
        · have hs2 : u.is_subscribed = false := by simpa using hs
          rw [can_download_unsub today hf2 (by simpa using hs2),
            can_download_unsub today hf hs2]

/-- C4: when the stored date differs from the current date,
`reset_daily_limits` zeroes both daily counters, stamps the current date,
persists the table, and a second run on the same date is a no-op. -/
theorem c4_reset_if_new_day (s : UMState) (uid today : Nat)
    (h : (recordView s uid today).last_reset ≠ today) :
    recordView (reset_daily_limits s uid today) uid today =
      { recordView s uid today with
        downloads_today := 0, summaries_today := 0, last_reset := today } ∧
    (reset_daily_limits s uid today).persisted = (reset_daily_limits s uid today).users ∧
    reset_daily_limits (reset_daily_limits s uid today) uid today =
      reset_daily_limits s uid today := by
  cases hf : findUser s.users uid with
  | none =>
      exfalso
      apply h
      simp [recordView, get_user_notFound today hf, freshUser]
  | some u =>
      have hu : recordView s uid today = u := by simp [recordView, get_user_found today hf]
      rw [hu] at h ⊢
      have hr := reset_daily_limits_found (s := s) today hf
      have hst : resetState s uid u today =
          ⟨setUser s.users uid (resetView u today), setUser s.users uid (resetView u today)⟩ := by
        simp [resetState, h]
      have hfind : findUser (resetState s uid u today).users uid = some (resetView u today) := by
        rw [hst]; exact findUser_setUser_self _ _ _
      refine ⟨?_, ?_, ?_⟩
      · rw [hr]
        simp [recordView, get_user_found today hfind, resetView, h]
      · rw [hr, hst]
      · rw [hr]
        have h2 := reset_daily_limits_found (s := resetState s uid u today) today hfind
        rw [h2]
        have : (resetView u today).last_reset = today := by simp [resetView, h]
        simp [resetState, this]

/-- Witness for C4 at a concrete record whose stored date 0 differs from
the current date 1. -/
theorem c4_reset_if_new_day_witness :
    recordView (reset_daily_limits ⟨[(1, freshUser 0)], [(1, freshUser 0)]⟩ 1 1) 1 1 =
      { recordView ⟨[(1, freshUser 0)], [(1, freshUser 0)]⟩ 1 1 with
        downloads_today := 0, summaries_today := 0, last_reset := 1 } ∧
    (reset_daily_limits ⟨[(1, freshUser 0)], [(1, freshUser 0)]⟩ 1 1).persisted =
      (reset_daily_limits ⟨[(1, freshUser 0)], [(1, freshUser 0)]⟩ 1 1).users ∧
    reset_daily_limits (reset_daily_limits ⟨[(1, freshUser 0)], [(1, freshUser 0)]⟩ 1 1) 1 1 =
      reset_daily_limits ⟨[(1, freshUser 0)], [(1, freshUser 0)]⟩ 1 1 :=
  c4_reset_if_new_day ⟨[(1, freshUser 0)], [(1, freshUser 0)]⟩ 1 1 (by decide)

theorem downloadLimit_pos (b : Bool) : 0 < downloadLimit b := by
  cases b <;> decide

theorem summaryLimit_pos (b : Bool) : 0 < summaryLimit b := by
  cases b <;> decide

theorem resetView_total_downloads (u : UserRecord) (today : Nat) :
    (resetView u today).total_downloads = u.total_downloads := by
  unfold resetView; split <;> rfl

theorem resetView_total_summaries (u : UserRecord) (today : Nat) :
    (resetView u today).total_summaries = u.total_summaries := by
  unfold resetView; split <;> rfl

theorem findUser_resetState {s : UMState} {uid : Nat} {u : UserRecord} (today : Nat)
    (h : findUser s.users uid = some u) :
    findUser (resetState s uid u today).users uid = some (resetView u today) := by
  by_cases hd : u.last_reset = today
  · simp [resetState, hd, resetView, h]
  · simp [resetState, hd, findUser_setUser_self]

theorem increment_download_found {s : UMState} {uid : Nat} {u : UserRecord} (today : Nat)
    (h : findUser s.users uid = some u) :
    increment_download s uid today =
      ⟨setUser s.users uid
          { u with
            downloads_today := u.downloads_today + 1
            total_downloads := u.total_downloads + 1 },
        setUser s.users uid
          { u with
            downloads_today := u.downloads_today + 1
            total_downloads := u.total_downloads + 1 }⟩ := by
  simp [increment_download, get_user_found today h, save_user_data]

theorem increment_summary_found {s : UMState} {uid : Nat} {u : UserRecord} (today : Nat)
    (h : findUser s.users uid = some u) :
    increment_summary s uid today =
      ⟨setUser s.users uid
          { u with
            summaries_today := u.summaries_today + 1
            total_summaries := u.total_summaries + 1 },
        setUser s.users uid
          { u with
            summaries_today := u.summaries_today + 1
            total_summaries := u.total_summaries + 1 }⟩ := by
  simp [increment_summary, get_user_found today h, save_user_data]

/-- When the download gate refuses, the state it leaves still shows the
caller's view of the record unchanged. -/
theorem can_download_false_state (s : UMState) (uid today : Nat)
    (hg : (can_download s uid today).1 = false) :
    findUser (can_download s uid today).2.users uid = some (recordView s uid today) := by
  cases hf : findUser s.users uid with
  | none =>
      rw [can_download_notFound today hf]
      simp [recordView, get_user_notFound today hf, findUser_setUser_self]
  | some u =>
      by_cases hs : u.is_subscribed
      · rw [can_download_sub today hf hs] at hg
        by_cases hd : u.last_reset = today
        · rw [can_download_sub today hf hs]
          simp only [resetState, hd, ne_eq, not_true_eq_false, if_false]
          simp [recordView, get_user_found today hf, hf]
        · exfalso
          simp only [decide_eq_false_iff_not, not_lt] at hg
          have : (resetView u today).downloads_today = 0 := by simp [resetView, hd]
          rw [this] at hg
          exact Nat.lt_irrefl 0 (Nat.lt_of_lt_of_le (downloadLimit_pos u.is_premium) hg)
      · have hs2 : u.is_subscribed = false := by simpa using hs
        rw [can_download_unsub today hf hs2]
        simp [recordView, get_user_found today hf, hf]

theorem can_summarize_false_state (s : UMState) (uid today : Nat)
    (hg : (can_summarize s uid today).1 = false) :
    findUser (can_summarize s uid today).2.users uid = some (recordView s uid today) := by
  cases hf : findUser s.users uid with
  | none =>
      rw [can_summarize_notFound today hf]
      simp [recordView, get_user_notFound today hf, findUser_setUser_self]
  | some u =>
      by_cases hs : u.is_subscribed
      · rw [can_summarize_sub today hf hs] at hg
        by_cases hd : u.last_reset = today
        · rw [can_summarize_sub today hf hs]
          simp only [resetState, hd, ne_eq, not_true_eq_false, if_false]
          simp [recordView, get_user_found today hf, hf]
        · exfalso
          simp only [decide_eq_false_iff_not, not_lt] at hg
          have : (resetView u today).summaries_today = 0 := by simp [resetView, hd]
          rw [this] at hg
          exact Nat.lt_irrefl 0 (Nat.lt_of_lt_of_le (summaryLimit_pos u.is_premium) hg)
      · have hs2 : u.is_subscribed = false := by simpa using hs
        rw [can_summarize_unsub today hf hs2]
        simp [recordView, get_user_found today hf, hf]

/-- C2: when a gating check returns false the corresponding pipeline is
never invoked and the caller's view of the record (daily and lifetime
counters included) is unchanged; when the pipeline fails the state is
exactly the post-gate state (no increment); when the gate passed and the
pipeline succeeded, the corresponding daily and lifetime counters are
incremented by exactly one. -/
theorem c2_gate_pipeline_increment (s : UMState) (uid today : Nat)
    (rd : DownloadResult) (rs : SummaryResult) :
    ((can_download s uid today).1 = false →
      (handle_youtube_download s uid today rd).2 = false ∧
      recordView (handle_youtube_download s uid today rd).1 uid today
        = recordView s uid today) ∧
    ((can_summarize s uid today).1 = false →
      (handle_article_summary s uid today rs).2 = false ∧
      recordView (handle_article_summary s uid today rs).1 uid today
        = recordView s uid today) ∧
    (isSuccess rd = false →
      (handle_youtube_download s uid today rd).1 = (can_download s uid today).2) ∧
    (isSuccessS rs = false →
      (handle_article_summary s uid today rs).1 = (can_summarize s uid today).2) ∧
    ((can_download s uid today).1 = true → isSuccess rd = true →
      (recordView (handle_youtube_download s uid today rd).1 uid today).total_downloads
        = (recordView s uid today).total_downloads + 1 ∧
      (recordView (handle_youtube_download s uid today rd).1 uid today).downloads_today
        = (resetView (recordView s uid today) today).downloads_today + 1) ∧
    ((can_summarize s uid today).1 = true → isSuccessS rs = true →
      (recordView (handle_article_summary s uid today rs).1 uid today).total_summaries
        = (recordView s uid today).total_summaries + 1 ∧
      (recordView (handle_article_summary s uid today rs).1 uid today).summaries_today
        = (resetView (recordView s uid today) today).summaries_today + 1) := by
  refine ⟨?_, ?_, ?_, ?_, ?_, ?_⟩
  · intro hg
    have hrec := can_download_false_state s uid today hg
    have hgu := get_user_found (s := (can_download s uid today).2) today hrec
    constructor
    · simp [handle_youtube_download, hg]
    · simp [handle_youtube_download, hg, hgu, recordView]
  · intro hg
    have hrec := can_summarize_false_state s uid today hg
    have hgu := get_user_found (s := (can_summarize s uid today).2) today hrec
    constructor
    · simp [handle_article_summary, hg]
    · simp [handle_article_summary, hg, hgu, recordView]
  · intro hfail
    by_cases hg : (can_download s uid today).1 = false
    · have hrec := can_download_false_state s uid today hg
      have hgu := get_user_found (s := (can_download s uid today).2) today hrec
      simp [handle_youtube_download, hg, hgu]
    · have hg2 : (can_download s uid today).1 = true := by simpa using hg
      simp [handle_youtube_download, hg2, hfail]
  · intro hfail
    by_cases hg : (can_summarize s uid today).1 = false
    · have hrec := can_summarize_false_state s uid today hg
      have hgu := get_user_found (s := (can_summarize s uid today).2) today hrec
      simp [handle_article_summary, hg, hgu]
    · have hg2 : (can_summarize s uid today).1 = true := by simpa using hg
      simp [handle_article_summary, hg2, hfail]
  · intro hg hsucc
    cases hf : findUser s.users uid with
    | none =>
        rw [can_download_notFound today hf] at hg
        exact absurd hg (by simp)
    | some u =>
        by_cases hs : u.is_subscribed
        · have hcd := can_download_sub today hf hs
          have hr2 : findUser (can_download s uid today).2.users uid
              = some (resetView u today) := by
            rw [hcd]; exact findUser_resetState today hf
          have hinc := increment_download_found (s := (can_download s uid today).2) today hr2
          have hr3 : findUser (increment_download (can_download s uid today).2 uid today).users uid
              = some { resetView u today with
                  downloads_today := (resetView u today).downloads_today + 1,
                  total_downloads := (resetView u today).total_downloads + 1 } := by
            rw [hinc]; exact findUser_setUser_self _ _ _
          have hgu3 := get_user_found
            (s := increment_download (can_download s uid today).2 uid today) today hr3
          have hu : recordView s uid today = u := by
            simp [recordView, get_user_found today hf]
          simp [handle_youtube_download, hg, hsucc, hgu3, recordView,
            get_user_found today hf, resetView_total_downloads]
        · have hs2 : u.is_subscribed = false := by simpa using hs
          rw [can_download_unsub today hf hs2] at hg
          exact absurd hg (by simp)
  · intro hg hsucc
    cases hf : findUser s.users uid with
    | none =>
        rw [can_summarize_notFound today hf] at hg
        exact absurd hg (by simp)
    | some u =>
        by_cases hs : u.is_subscribed
        · have hcd := can_summarize_sub today hf hs
          have hr2 : findUser (can_summarize s uid today).2.users uid
              = some (resetView u today) := by
            rw [hcd]; exact findUser_resetState today hf
          have hinc := increment_summary_found (s := (can_summarize s uid today).2) today hr2
          have hr3 : findUser (increment_summary (can_summarize s uid today).2 uid today).users uid
              = some { resetView u today with
                  summaries_today := (resetView u today).summaries_today + 1,
                  total_summaries := (resetView u today).total_summaries + 1 } := by
            rw [hinc]; exact findUser_setUser_self _ _ _
          have hgu3 := get_user_found
            (s := increment_summary (can_summarize s uid today).2 uid today) today hr3
          have hu : recordView s uid today = u := by
            simp [recordView, get_user_found today hf]
          simp [handle_article_summary, hg, hsucc, hgu3, recordView,
            get_user_found today hf, resetView_total_summaries]
        · have hs2 : u.is_subscribed = false := by simpa using hs
          rw [can_summarize_unsub today hf hs2] at hg
          exact absurd hg (by simp)

/-- Concrete store for the C2 witness: user 1 is a free subscriber at the
daily download limit; user 2 is a fresh free subscriber. -/
def uFullW : UserRecord :=
  { freshUser 4 with is_subscribed := true, downloads_today := 3, summaries_today := 5 }

def uSubW : UserRecord :=
  { freshUser 4 with is_subscribed := true }

def sFullW : UMState := ⟨[(1, uFullW)], [(1, uFullW)]⟩

def sSubW : UMState := ⟨[(2, uSubW)], [(2, uSubW)]⟩

/-- Witness for C2: a free subscribed user at the daily download limit (3)
is refused with the pipeline never invoked and the record unchanged; a
successful pipeline run for a fresh subscribed user increments the
counters. -/
theorem c2_gate_pipeline_increment_witness :
    ((handle_youtube_download sFullW 1 4 (.error "boom")).2 = false ∧
      recordView (handle_youtube_download sFullW 1 4 (.error "boom")).1 1 4
        = recordView sFullW 1 4) ∧
    ((recordView (handle_youtube_download sSubW 2 4
        (.success "f.mp4" "t" 10 "u" "")).1 2 4).total_downloads
        = (recordView sSubW 2 4).total_downloads + 1 ∧
      (recordView (handle_youtube_download sSubW 2 4
        (.success "f.mp4" "t" 10 "u" "")).1 2 4).downloads_today
        = (resetView (recordView sSubW 2 4) 4).downloads_today + 1) := by
  constructor
  · exact (c2_gate_pipeline_increment sFullW 1 4 (.error "boom") (.failure "x")).1
      (by decide)
  · exact (c2_gate_pipeline_increment sSubW 2 4 (.success "f.mp4" "t" 10 "u" "")
      (.failure "x")).2.2.2.2.1 (by decide) (by decide)

theorem setUser_setUser (l : List (Nat × UserRecord)) (uid : Nat) (a b : UserRecord) :
    setUser (setUser l uid a) uid b = setUser l uid b := by
  induction l with
  | nil => simp [setUser]
  | cons p t ih =>
      obtain ⟨k, w⟩ := p
      by_cases hk : k = uid
      · simp [setUser, hk]
      · simp [setUser, hk, ih]

/-- Lifetime counters never decrease from state `s` to state `t`: any
identity present in both maps to records with non-decreasing
`total_downloads` and `total_summaries`. -/
def totalsLE (s t : UMState) : Prop :=
  ∀ uid u v, findUser s.users uid = some u → findUser t.users uid = some v →
    u.total_downloads ≤ v.total_downloads ∧ u.total_summaries ≤ v.total_summaries

theorem totalsLE_refl (s : UMState) : totalsLE s s := by
  intro uid u v hu hv
  rw [hu] at hv
  cases hv
  exact ⟨Nat.le_refl _, Nat.le_refl _⟩

theorem totalsLE_set {s t : UMState} {uid : Nat} {u v : UserRecord}
    (hf : findUser s.users uid = some u) (ht : t.users = setUser s.users uid v)
    (h1 : u.total_downloads ≤ v.total_downloads)
    (h2 : u.total_summaries ≤ v.total_summaries) : totalsLE s t := by
  intro uid2 a b ha hb
  by_cases he : uid2 = uid
  · subst he
    rw [ht, findUser_setUser_self] at hb
    rw [hf] at ha
    cases ha; cases hb
    exact ⟨h1, h2⟩
  · rw [ht, findUser_setUser_ne _ _ _ _ he, ha] at hb
    cases hb
    exact ⟨Nat.le_refl _, Nat.le_refl _⟩

theorem totalsLE_insert {s t : UMState} {uid : Nat} {v : UserRecord}
    (hf : findUser s.users uid = none) (ht : t.users = setUser s.users uid v) :
    totalsLE s t := by
  intro uid2 a b ha hb
  by_cases he : uid2 = uid
  · subst he
    rw [hf] at ha
    cases ha
  · rw [ht, findUser_setUser_ne _ _ _ _ he, ha] at hb
    cases hb
    exact ⟨Nat.le_refl _, Nat.le_refl _⟩

/-- C8: none of the store or quota-engine operations (`get_user`,
`subscribe_user`, `reset_daily_limits`, `increment_download`,
`increment_summary`) ever decreases a record's `total_downloads` or
`total_summaries`. -/
theorem c8_totals_monotone (s : UMState) (uid today now : Nat) (ref : Option String) :
    totalsLE s (get_user s uid today).2 ∧
    totalsLE s (subscribe_user s uid today now ref) ∧
    totalsLE s (reset_daily_limits s uid today) ∧
    totalsLE s (increment_download s uid today) ∧
    totalsLE s (increment_summary s uid today) := by
  refine ⟨?_, ?_, ?_, ?_, ?_⟩
  · cases hf : findUser s.users uid with
    | none =>
        exact totalsLE_insert hf (by rw [get_user_notFound today hf])
    | some u =>
        rw [get_user_found today hf]
        exact totalsLE_refl s
  · cases hf : findUser s.users uid with
    | none =>
        cases ref with
        | none =>
            refine totalsLE_insert (v := { freshUser today with
              is_subscribed := true, subscription_date := some now }) hf ?_
            simp [subscribe_user, get_user_notFound today hf, save_user_data, setUser_setUser]
        | some c =>
            refine totalsLE_insert (v := { freshUser today with
              is_subscribed := true, subscription_date := some now,
              referred_by := some c }) hf ?_
            simp [subscribe_user, get_user_notFound today hf, save_user_data, setUser_setUser]
    | some u =>
        cases ref with
        | none =>
            refine totalsLE_set (v := { u with
              is_subscribed := true, subscription_date := some now }) hf ?_
              (Nat.le_refl _) (Nat.le_refl _)
            simp [subscribe_user, get_user_found today hf, save_user_data]
        | some c =>
            refine totalsLE_set (v := { u with
              is_subscribed := true, subscription_date := some now,
              referred_by := some c }) hf ?_ (Nat.le_refl _) (Nat.le_refl _)
            simp [subscribe_user, get_user_found today hf, save_user_data]
  · cases hf : findUser s.users uid with
    | none =>
        exact totalsLE_insert hf (by rw [reset_daily_limits_notFound today hf])
    | some u =>
        rw [reset_daily_limits_found today hf]
        by_cases hd : u.last_reset = today
        · simp only [resetState, hd, ne_eq, not_true_eq_false, if_false]
          exact totalsLE_refl s
        · refine totalsLE_set (v := resetView u today) hf ?_ ?_ ?_
          · simp [resetState, hd]
          · rw [resetView_total_downloads]
          · rw [resetView_total_summaries]
  · cases hf : findUser s.users uid with
    | none =>
        refine totalsLE_insert (v := { freshUser today with
          downloads_today := 1, total_downloads := 1 }) hf ?_
        simp [increment_download, get_user_notFound today hf, save_user_data,
          setUser_setUser, freshUser]
    | some u =>
        refine totalsLE_set (v := { u with
          downloads_today := u.downloads_today + 1,
          total_downloads := u.total_downloads + 1 }) hf ?_
          (Nat.le_succ _) (Nat.le_refl _)
        rw [increment_download_found today hf]
  · cases hf : findUser s.users uid with
    | none =>
        refine totalsLE_insert (v := { freshUser today with
          summaries_today := 1, total_summaries := 1 }) hf ?_
        simp [increment_summary, get_user_notFound today hf, save_user_data,
          setUser_setUser, freshUser]
    | some u =>
        refine totalsLE_set (v := { u with
          summaries_today := u.summaries_today + 1,
          total_summaries := u.total_summaries + 1 }) hf ?_
          (Nat.le_refl _) (Nat.le_succ _)
        rw [increment_summary_found today hf]

/-- Witness for C8: the lifetime download counter of a concrete stored
record does not decrease across `increment_download`. -/
theorem c8_totals_monotone_witness :
    uFullW.total_downloads
      ≤ (recordView (increment_download sFullW 1 4) 1 4).total_downloads ∧
    uFullW.total_summaries
      ≤ (recordView (increment_download sFullW 1 4) 1 4).total_summaries :=
  (c8_totals_monotone sFullW 1 4 0 none).2.2.2.1 1 uFullW
    (recordView (increment_download sFullW 1 4) 1 4) (by decide) (by decide)

/-- C5 counterexample: starting from an empty store, `get_user` inserts a
record for identity 7 into the in-memory table, but the persisted table
still lacks it when the call returns — the insertion is NOT saved before
the call returns, contrary to the claim. -/
theorem c5_counterexample :
    findUser (get_user ⟨[], []⟩ 7 0).2.users 7 ≠ none ∧
    findUser (get_user ⟨[], []⟩ 7 0).2.persisted 7 = none := by decide

/-- C5 (amended): on an unseen identity `get_user` inserts into the
in-memory table and returns a fresh record with all counters zero and
`is_subscribed = false`, leaving the persisted table unchanged (the
insertion is not saved before the call returns); on a present identity it
returns the existing record and leaves the state unchanged. -/
theorem c5_get_or_create (s : UMState) (uid today : Nat) :
    (findUser s.users uid = none →
      (recordView s uid today).downloads_today = 0 ∧
      (recordView s uid today).summaries_today = 0 ∧
      (recordView s uid today).total_downloads = 0 ∧
      (recordView s uid today).total_summaries = 0 ∧
      (recordView s uid today).is_subscribed = false ∧
      findUser (get_user s uid today).2.users uid = some (recordView s uid today) ∧
      (get_user s uid today).2.persisted = s.persisted) ∧
    (∀ u, findUser s.users uid = some u → get_user s uid today = (u, s)) := by
  constructor
  · intro h
    simp [recordView, get_user_notFound today h, freshUser, findUser_setUser_self]
  · intro u h
    exact get_user_found today h

/-- Witness for C5: the unseen-identity branch at an empty store and the
present-identity branch at a one-record store. -/
theorem c5_get_or_create_witness :
    ((recordView ⟨[], []⟩ 7 0).downloads_today = 0 ∧
      (recordView ⟨[], []⟩ 7 0).summaries_today = 0 ∧
      (recordView ⟨[], []⟩ 7 0).total_downloads = 0 ∧
      (recordView ⟨[], []⟩ 7 0).total_summaries = 0 ∧
      (recordView ⟨[], []⟩ 7 0).is_subscribed = false ∧
      findUser (get_user ⟨[], []⟩ 7 0).2.users 7 = some (recordView ⟨[], []⟩ 7 0) ∧
      (get_user ⟨[], []⟩ 7 0).2.persisted = UMState.persisted ⟨[], []⟩) ∧
    get_user ⟨[(3, freshUser 5)], []⟩ 3 9 = (freshUser 5, ⟨[(3, freshUser 5)], []⟩) :=
  ⟨(c5_get_or_create ⟨[], []⟩ 7 0).1 (by decide),
    (c5_get_or_create ⟨[(3, freshUser 5)], []⟩ 3 9).2 (freshUser 5) (by decide)⟩

/-! String length facts for the pipeline bounds. -/

theorem str_length_data (s : String) : s.length = s.data.length := rfl

theorem pyTake_length (s : String) (n : Nat) : (pyTake s n).length = min n s.length := by
  show (s.data.take n).length = min n s.data.length
  exact List.length_take n s.data

/-- The truncated description is at most 503 characters (500 plus the
appended ellipsis). -/
theorem descTrunc_length (d : Option String) : (descTrunc d).length ≤ 503 := by
  cases d with
  | none => simp [descTrunc]
  | some x =>
      by_cases hx : x = ""
      · simp [descTrunc, hx]
      · simp only [descTrunc, hx, if_false]
        rw [String.length_append, pyTake_length]
        have h1 : min 500 x.length ≤ 500 := Nat.min_le_left _ _
        have h2 : ("..." : String).length = 3 := rfl
        omega

/-- C3: whenever the size estimate resolved from the metadata (`filesize`,
falling back to `filesize_approx`) exceeds the tier's maximum file size,
the media pipeline returns the too-large failure carrying the observed size
and the tier limit, and the payload transfer is never performed. -/
theorem c3_too_large_never_transfers (s : UMState) (uid today m : Nat) (info : MediaInfo)
    (filename : String) (ft : FormatType)
    (hm : (get_max_file_size (get_user s uid today).2 uid today).1 = m)
    (h : m < sizeEstimate info) :
    (download_youtube_video s uid today info filename ft).1 =
      (DownloadResult.tooLarge (sizeEstimate info) m (get_user s uid today).1.is_premium,
        false) := by
  have hne : sizeEstimate info ≠ 0 := by omega
  simp [download_youtube_video, hm, hne, h]

/-- Witness for C3: metadata reporting one byte over the free 50 MiB limit
is refused without a transfer. -/
theorem c3_too_large_never_transfers_witness :
    (download_youtube_video ⟨[], []⟩ 1 0 ⟨some 52428801, none, none, none, none, none⟩
        "v.mp4" FormatType.video).1 =
      (DownloadResult.tooLarge
        (sizeEstimate ⟨some 52428801, none, none, none, none, none⟩) 52428800
        ((get_user ⟨[], []⟩ 1 0).1.is_premium), false) :=
  c3_too_large_never_transfers ⟨[], []⟩ 1 0 52428800
    ⟨some 52428801, none, none, none, none, none⟩ "v.mp4" FormatType.video
    (by decide) (by decide)

/-- C10: when both `filesize` and `filesize_approx` are absent, `None` or
zero, the size-ceiling check is skipped and the pipeline proceeds to the
download step, regardless of the policy maximum and the actual artifact
size. -/
theorem c10_no_estimate_skips_check (s : UMState) (uid today : Nat) (info : MediaInfo)
    (filename : String) (ft : FormatType)
    (h1 : info.filesize = none ∨ info.filesize = some 0)
    (h2 : info.filesize_approx = none ∨ info.filesize_approx = some 0) :
    (download_youtube_video s uid today info filename ft).1.2 = true ∧
    isSuccess (download_youtube_video s uid today info filename ft).1.1 = true := by
  have hz : sizeEstimate info = 0 := by
    rcases h1 with h1 | h1 <;> rcases h2 with h2 | h2 <;> simp [sizeEstimate, h1, h2]
  simp [download_youtube_video, hz, isSuccess]

/-- Witness for C10: with `filesize = None` and `filesize_approx = 0` the
download step runs. -/
theorem c10_no_estimate_skips_check_witness :
    (download_youtube_video ⟨[], []⟩ 1 0 ⟨none, some 0, none, none, none, none⟩
        "v.mp4" FormatType.video).1.2 = true ∧
    isSuccess (download_youtube_video ⟨[], []⟩ 1 0 ⟨none, some 0, none, none, none, none⟩
        "v.mp4" FormatType.video).1.1 = true :=
  c10_no_estimate_skips_check ⟨[], []⟩ 1 0 ⟨none, some 0, none, none, none, none⟩
    "v.mp4" FormatType.video (Or.inl rfl) (Or.inr rfl)

/-- The description field of a pipeline outcome (empty for failures). -/
def resultDescription : DownloadResult → String
  | .success _ _ _ _ d => d
  | _ => ""

/-- A 501-character description. -/
def cDescLong : String := String.mk (List.replicate 501 'a')

set_option maxRecDepth 40000 in
/-- C9 counterexample: a successful acquisition whose source description
has 501 characters yields a result description of 503 characters (the
source appends "..." after slicing 500 characters), exceeding the claimed
500-character bound. -/
theorem c9_counterexample :
    isSuccess (download_youtube_video ⟨[], []⟩ 1 0
        ⟨none, none, none, none, none, some cDescLong⟩ "v.mp4" FormatType.video).1.1
      = true ∧
    ¬ ((resultDescription (download_youtube_video ⟨[], []⟩ 1 0
        ⟨none, none, none, none, none, some cDescLong⟩ "v.mp4" FormatType.video).1.1).length
          ≤ 500) := by decide

/-- C9 (amended): every successful media acquisition carries the artifact
path, title, duration and uploader from the resolved metadata, and a
description obtained by slicing the source description to 500 characters
and appending an ellipsis when it is non-empty — hence of length at most
503 (not 500). -/
theorem c9_success_metadata (s : UMState) (uid today : Nat) (info : MediaInfo)
    (filename : String) (ft : FormatType) (fp t : String) (dur : Nat) (up de : String)
    (h : (download_youtube_video s uid today info filename ft).1.1 =
      DownloadResult.success fp t dur up de) :
    fp = (if ft = FormatType.audio then audioFilename filename else filename) ∧
    t = info.title.getD "Unknown" ∧
    dur = info.duration.getD 0 ∧
    up = info.uploader.getD "Unknown" ∧
    de = descTrunc info.description ∧
    de.length ≤ 500 + 3 := by
  simp only [download_youtube_video] at h
  split at h
  · simp at h
  · simp only [Prod.fst] at h
    rw [DownloadResult.success.injEq] at h
    obtain ⟨h1, h2, h3, h4, h5⟩ := h
    exact ⟨h1.symm, h2.symm, h3.symm, h4.symm, h5.symm,
      h5 ▸ descTrunc_length info.description⟩

/-- Witness for C9 at concrete metadata with a short description. -/
theorem c9_success_metadata_witness :
    "clip.mp4" = (if FormatType.video = FormatType.audio
        then audioFilename "clip.mp4" else "clip.mp4") ∧
    "My Title" = (Option.some "My Title").getD "Unknown" ∧
    63 = (Option.some 63).getD 0 ∧
    "Chan" = (Option.some "Chan").getD "Unknown" ∧
    "hello world..." = descTrunc (some "hello world") ∧
    ("hello world..." : String).length ≤ 500 + 3 :=
  c9_success_metadata ⟨[], []⟩ 1 0 ⟨none, none, some "My Title", some 63,
    some "Chan", some "hello world"⟩ "clip.mp4" FormatType.video
    "clip.mp4" "My Title" 63 "Chan" "hello world..." (by decide)

/-- A four-sentence text on which strategy A truncates: every sentence is
long, so the joined top-3 summary exceeds the free-tier 300-character
output limit. -/
def cTextLong : String := "alpha bravo charlie delta echo foxtrot golf hotel india juliet kilo lima mike november oscar papa quebec romeo sierra. one two three four five six seven eight nine ten eleven twelve thirteen fourteen fifteen sixteen seventeen eighteen. red orange yellow green blue indigo violet crimson amber teal maroon olive navy silver golden bronze copper. spring summer autumn winter morning evening midnight noon dawn dusk sunrise sunset twilight daybreak nightfall gloaming"

set_option maxRecDepth 40000 in
/-- C6 counterexample: on a four-sentence text whose top-3 summary has 343
characters, the free-tier result has 304 characters = 300 + the 3-character
ellipsis + the appended trailing period, exceeding the claimed bound of
limit + ellipsis length (303). -/
theorem c6_counterexample :
    3 < (pySplit ". " cTextLong).length ∧
    tierMaxLength false < (topSummary cTextLong).length ∧
    ¬ ((summaryText (summarize_with_local_extraction cTextLong
        (tierMaxLength false))).length ≤ tierMaxLength false + 3) := by decide

/-- C6 (amended): on a text with more than 3 sentences whose joined top-3
summary exceeds the tier output limit, the returned summary has length at
most the limit plus the ellipsis length plus one for the appended trailing
period. -/
theorem c6_truncation_bound (prem : Bool) (text out : String)
    (h3 : 3 < (pySplit ". " text).length)
    (hover : tierMaxLength prem < (topSummary text).length)
    (hout : summarize_with_local_extraction text (tierMaxLength prem) =
      SummaryResult.success out) :
    out.length ≤ tierMaxLength prem + 3 + 1 := by
  have hn : ¬ ((pySplit ". " text).length ≤ 3) := by omega
  simp only [summarize_with_local_extraction, hn, if_false, hover, if_true,
    SummaryResult.success.injEq] at hout
  rw [← hout, String.length_append, String.length_append, pyTake_length]
  have h1 : min (tierMaxLength prem) (topSummary text).length ≤ tierMaxLength prem :=
    Nat.min_le_left _ _
  have h2 : ("..." : String).length = 3 := rfl
  have h3 : ("." : String).length = 1 := rfl
  omega

set_option maxRecDepth 40000 in
/-- Witness for C6 on the concrete four-sentence text, free tier. -/
theorem c6_truncation_bound_witness :
    (summaryText (summarize_with_local_extraction cTextLong (tierMaxLength false))).length
      ≤ tierMaxLength false + 3 + 1 :=
  c6_truncation_bound false cTextLong
    (summaryText (summarize_with_local_extraction cTextLong (tierMaxLength false)))
    (by decide) (by decide) (by decide)

set_option maxRecDepth 10000 in
/-- C7 counterexample: the router matches the domain markers against the
whole URL, not its host — a URL whose host is `example.com` but whose query
string mentions `youtube.com` is classified Media even though its host
matches no marker. -/
theorem c7_counterexample :
    classify "https://example.com/story?ref=youtube.com" = UrlClass.Media ∧
    (∀ d ∈ youtube_domains,
      strContains (pyLower (hostOf "https://example.com/story?ref=youtube.com")) d
        = false) := by decide

set_option maxRecDepth 10000 in
/-- C7 (amended): the router classifies a URL as Media exactly when the
lowercased FULL URL contains one of the fixed media-domain markers as a
substring (not only the host); every other URL is an Article.  The two
example URLs classify as the claim states. -/
theorem c7_router_classification (url : String) :
    (classify url = UrlClass.Media ↔
      ∃ d ∈ youtube_domains, strContains (pyLower url) d = true) ∧
    classify "https://youtu.be/abc123" = UrlClass.Media ∧
    classify "https://example.com/news/story" = UrlClass.Article := by
  refine ⟨?_, by decide, by decide⟩
  constructor
  · intro hc
    have hy : is_youtube url = true := by
      by_cases hy : is_youtube url
      · exact hy
      · simp [classify, hy] at hc
    simpa [is_youtube, List.any_eq_true] using hy
  · intro hd
    have hy : is_youtube url = true := by
      simpa [is_youtube, List.any_eq_true] using hd
    simp [classify, hy]

end SMB
